import Mathlib

/-!
Verification of the easy-sql relational store adapter
(`src/easy_sql/sql_helper.py`) against its design specification.

The adapter builds SQL statements by string interpolation and executes them
through a backend driver.  We embed, per backend:

* the exact statement strings the Python code builds (string concatenation and
  `str.join`, embedded as `joinSep`);
* the executed semantics of those statements on an explicit table state
  (`List Row`), with the driver's positional-parameter-binding contract made
  explicit: executing a statement whose placeholder count differs from the
  number of supplied parameters raises a driver error, which the Python code
  catches (`except ... Error`) and converts to its fallback return value.

Rows are Python dicts: ordered association lists from column name to scalar.
-/

namespace EasySql

/-- Backend-native scalar values (text, integer, NULL) stored in a row.
Mirrors the value types the Python layer passes through to the drivers. -/
inductive Val where
  | intV : Int → Val
  | strV : String → Val
  | nullV : Val
deriving DecidableEq, Repr

/-- A Python dict used as a row: an ordered association list from column name
to scalar value (Python dicts preserve insertion order and have unique keys). -/
abbrev Row := List (String × Val)

/-- Python's `sep.join(parts)`: empty string for no parts, otherwise the
parts concatenated with `sep` between consecutive parts. -/
def joinSep (sep : String) : List String → String
  | [] => ""
  | [x] => x
  | x :: y :: xs => x ++ sep ++ joinSep sep (y :: xs)

/-- Dict lookup `data[col]` / membership `col in data`: the value at the first
matching key, if any. -/
def rowVal (r : Row) (c : String) : Option Val :=
  (r.find? (fun kv => kv.1 == c)).map (fun kv => kv.2)

/-- SQL equality as used by `col = ?` comparisons: NULL compares unequal to
everything (including NULL); values of different types compare unequal. -/
def sqlEq : Val → Val → Bool
  | Val.intV a, Val.intV b => a == b
  | Val.strV a, Val.strV b => a == b
  | _, _ => false

/-- Whether a stored row satisfies one `c = ?` condition bound to value `v`:
the row's value at `c` must SQL-equal `v` (a row without the column never
matches). -/
def matchCond (r : Row) (c : String) (v : Val) : Bool :=
  match rowVal r c with
  | some w => sqlEq w v
  | none => false

/-- Result of `SELECT COUNT(*) FROM t WHERE c1 = ? AND c2 = ? ...` on table
state `table`, with condition columns and their bound values paired in `cp`. -/
def countMatches (table : List Row) (cp : List (String × Val)) : Nat :=
  (table.filter (fun r => cp.all (fun p => matchCond r p.1 p.2))).length

/-- SqliteDB.is_duplicate's WHERE-building loop (sql_helper.py lines 104-109):
for each `col` of `unique_columns`, if `col in data`, append the condition
`col = ?` and the parameter `data[col]`.  Conditions and parameters are built
together, so we keep them paired. -/
def sqliteDupCondParams (data : Row) (uniq : List String) : List (String × Val) :=
  uniq.filterMap (fun c => (rowVal data c).map (fun v => (c, v)))

/-- The query string SqliteDB.is_duplicate executes (line 115):
`SELECT COUNT(*) FROM <table> WHERE <conditions joined by " AND ">`. -/
def sqliteDupQuery (t : String) (data : Row) (uniq : List String) : String :=
  "SELECT COUNT(*) FROM " ++ t ++ " WHERE " ++
    joinSep " AND " ((sqliteDupCondParams data uniq).map (fun p => p.1 ++ " = ?"))

/-- SqliteDB.is_duplicate (lines 96-125): returns False on empty
`unique_columns`; returns False when no unique column is present in `data`
(empty condition list, line 111); otherwise executes the COUNT query (whose
placeholder and parameter counts are equal by construction) and returns
`count > 0`. -/
def sqliteIsDuplicate (table : List Row) (data : Row) (uniq : List String) : Bool :=
  if uniq.isEmpty then false
  else if (sqliteDupCondParams data uniq).isEmpty then false
  else decide (0 < countMatches table (sqliteDupCondParams data uniq))

/-- MysqlDB.is_duplicate's condition list (line 488): one `col = %s` condition
for EVERY declared unique column, present in `data` or not. -/
def mysqlDupConds (uniq : List String) : List String :=
  uniq.map (fun c => c ++ " = %s")

/-- MysqlDB.is_duplicate's parameter list (line 489): `data[col]` for only the
unique columns present in `data`. -/
def mysqlDupParams (data : Row) (uniq : List String) : List Val :=
  uniq.filterMap (fun c => rowVal data c)

/-- The query string MysqlDB.is_duplicate executes (line 490). -/
def mysqlDupQuery (t : String) (uniq : List String) : String :=
  "SELECT COUNT(*) FROM " ++ t ++ " WHERE " ++
    joinSep " AND " (mysqlDupConds uniq)

/-- MysqlDB.is_duplicate (lines 481-497): returns False on empty
`unique_columns`; otherwise executes the COUNT query with the parameter list
bound positionally.  The driver contract makes execution fail whenever the
number of `%s` placeholders (one per declared unique column) differs from the
number of parameters; `except mysql.connector.Error` then returns False.  On
matching counts the i-th condition column is bound to the i-th parameter. -/
def mysqlIsDuplicate (table : List Row) (data : Row) (uniq : List String) : Bool :=
  if uniq.isEmpty then false
  else if (mysqlDupParams data uniq).length = uniq.length then
    decide (0 < countMatches table (uniq.zip (mysqlDupParams data uniq)))
  else false

/-- SqliteDB.insert (lines 205-226): skips (returning False, table untouched)
when `unique_columns` is truthy and `is_duplicate` reports a duplicate;
otherwise executes the INSERT (placeholder count equals value count by
construction; modeled as succeeding on the given table state) and returns
True.  Result: (new table state, returned boolean). -/
def sqliteInsert (table : List Row) (data : Row) (uniq : List String) : List Row × Bool :=
  if !uniq.isEmpty && sqliteIsDuplicate table data uniq then (table, false)
  else (table ++ [data], true)

/-- MysqlDB.insert (lines 533-550), same structure as `sqliteInsert` but with
the MySQL duplicate check. -/
def mysqlInsert (table : List Row) (data : Row) (uniq : List String) : List Row × Bool :=
  if !uniq.isEmpty && mysqlIsDuplicate table data uniq then (table, false)
  else (table ++ [data], true)

/-- Number of `?` value placeholders in a statement (the sqlite parameter
token). -/
def countQmarks (s : String) : Nat :=
  s.toList.count '?'

/-- Number of `%s` value placeholders in a statement (the mysql parameter
token). -/
def countPercentS : List Char → Nat
  | '%' :: 's' :: rest => countPercentS rest + 1
  | _ :: rest => countPercentS rest
  | [] => 0

/-- SqliteDB.update's statement (lines 256-257):
`UPDATE <table> SET <k1> = ?, <k2> = ?, ... WHERE <condition>`, the SET clause
from `data`'s keys and the condition text interpolated raw. -/
def sqliteUpdateQuery (t : String) (data : Row) (condition : String) : String :=
  "UPDATE " ++ t ++ " SET " ++
    joinSep ", " (data.map (fun kv => kv.1 ++ " = ?")) ++
    " WHERE " ++ condition

/-- The parameters SqliteDB.update binds (line 260): `tuple(data.values())`
only — the function has no `params` argument for the condition's
placeholders. -/
def sqliteUpdateParams (data : Row) : List Val :=
  data.map (fun kv => kv.2)

/-- Whether SqliteDB.update's execute succeeds: the sqlite3 driver requires
exactly as many bound parameters as `?` placeholders; on mismatch it raises,
the `except sqlite3.Error` branch prints, and no row is updated. -/
def sqliteUpdateExecOk (t : String) (data : Row) (condition : String) : Bool :=
  countQmarks (sqliteUpdateQuery t data condition) == (sqliteUpdateParams data).length

/-- MysqlDB.update's statement (lines 562-563), `%s` placeholders. -/
def mysqlUpdateQuery (t : String) (data : Row) (condition : String) : String :=
  "UPDATE " ++ t ++ " SET " ++
    joinSep ", " (data.map (fun kv => kv.1 ++ " = %s")) ++
    " WHERE " ++ condition

/-- The parameters MysqlDB.update binds (line 564):
`tuple(data.values()) + params` — the row's values followed by the
caller-supplied condition parameters. -/
def mysqlUpdateParams (data : Row) (params : List Val) : List Val :=
  data.map (fun kv => kv.2) ++ params

/-- Whether MysqlDB.update's execute succeeds under the driver's
placeholder/parameter-count contract. -/
def mysqlUpdateExecOk (t : String) (data : Row) (condition : String)
    (params : List Val) : Bool :=
  countPercentS (mysqlUpdateQuery t data condition).toList
    == (mysqlUpdateParams data params).length

/-- The operation-boundary error taxonomy of the design. -/
inductive DBError where
  | backendUnavailable : DBError
  | schemaError : DBError
  | queryError : DBError
deriving DecidableEq, Repr

/-- The `columns` argument of `select`: a Python `str` (wildcard `*` or an
already comma-joined list) or a Python `list` of column names. -/
inductive PyColumns where
  | str : String → PyColumns
  | list : List String → PyColumns
deriving DecidableEq, Repr

/-- Python's rendering of a list of plain strings inside an f-string
(`str` of the list): `['a', 'b']`. -/
def pyStrListRepr (l : List String) : String :=
  "[" ++ joinSep ", " (l.map (fun s => "\x27" ++ s ++ "\x27")) ++ "]"

/-- SqliteDB.select's statement (lines 337-342): a list argument is first
joined with `", "`; the WHERE clause is appended when `condition` is truthy
(not None and not the empty string). -/
def sqliteSelectCols : PyColumns → String
  | PyColumns.str s => s
  | PyColumns.list l => joinSep ", " l

/-- The WHERE clause of `select` is appended when `condition` is truthy in
Python: not None and not the empty string (lines 341-342 and 601-602). -/
def appendWhere (q : String) (condition : Option String) : String :=
  match condition with
  | some c => if c ≠ "" then q ++ " WHERE " ++ c else q
  | none => q

def sqliteSelectQuery (t : String) (cols : PyColumns) (condition : Option String) : String :=
  appendWhere ("SELECT " ++ sqliteSelectCols cols ++ " FROM " ++ t) condition

/-- MysqlDB.select's statement (lines 600-602): NO list join — the `columns`
argument is interpolated into the f-string as-is, so a Python list renders via
its string form `['a', 'b']`. -/
def mysqlSelectCols : PyColumns → String
  | PyColumns.str s => s
  | PyColumns.list l => pyStrListRepr l

def mysqlSelectQuery (t : String) (cols : PyColumns) (condition : Option String) : String :=
  appendWhere ("SELECT " ++ mysqlSelectCols cols ++ " FROM " ++ t) condition

/-- SqliteDB.select's return value (lines 344-352) as a function of the
driver-level execution outcome: the fetched rows on success, and `[]` from the
`except sqlite3.Error` branch (which only prints the error). -/
def sqliteSelectResult (outcome : Except DBError (List Row)) : List Row :=
  match outcome with
  | Except.ok rows => rows
  | Except.error _ => []

/-- MysqlDB.select's return value (lines 603-608): identical fallback
behavior, `[]` from the `except mysql.connector.Error` branch. -/
def mysqlSelectResult (outcome : Except DBError (List Row)) : List Row :=
  match outcome with
  | Except.ok rows => rows
  | Except.error _ => []

/-- Rendering of one column definition `(name, type, constraints)` in both
backends' CREATE TABLE builders: `f'{column[0]} {column[1]} {column[2]}'`. -/
def renderColumn (c : String × String × String) : String :=
  c.1 ++ " " ++ c.2.1 ++ " " ++ c.2.2

/-- Rendering of one foreign-key definition
`(column, referenced table, referenced column)` in both backends:
`FOREIGN KEY (<col>) REFERENCES <table>(<col>)`. -/
def renderForeignKey (fk : String × String × String) : String :=
  "FOREIGN KEY (" ++ fk.1 ++ ") REFERENCES " ++ fk.2.1 ++ "(" ++ fk.2.2 ++ ")"

/-- SqliteDB.table's DDL statement (lines 156-170): column definitions, then
(when `foreign_keys` is truthy) the foreign-key clauses, all in one list
joined with `", "` inside the triple-quoted f-string, whose exact newlines and
indentation we reproduce. -/
def sqliteTableQuery (t : String) (cols : List (String × String × String))
    (fks : List (String × String × String)) : String :=
  "\n        CREATE TABLE IF NOT EXISTS " ++ t ++ " (\n            " ++
    joinSep ", " (if fks.isEmpty then cols.map renderColumn
      else cols.map renderColumn ++ fks.map renderForeignKey) ++
    "\n        )\n        "

/-- MysqlDB.table's DDL statement (lines 514-518): the column definitions are
joined with `", "`; when `foreign_keys` is truthy the separately joined
foreign-key clauses are appended after a `", "`. -/
def mysqlTableQuery (t : String) (cols : List (String × String × String))
    (fks : List (String × String × String)) : String :=
  "CREATE TABLE IF NOT EXISTS " ++ t ++ " (" ++
    (if fks.isEmpty then joinSep ", " (cols.map renderColumn)
      else joinSep ", " (cols.map renderColumn) ++ ", " ++
        joinSep ", " (fks.map renderForeignKey)) ++ ")"

/-- Connection events of one operation, in order of occurrence. -/
inductive Ev where
  | acq : Ev
  | rel : Ev
deriving DecidableEq, Repr

/-- A trace releases every connection it acquired. -/
def balanced (tr : List Ev) : Bool :=
  tr.count Ev.acq == tr.count Ev.rel

/-- Whether a Python tuple (modeled as a list of its fields) survives the
`column[0] ... column[2]` accesses of the DDL builders: it needs at least
three elements, else IndexError. -/
def tupleOk (c : List String) : Bool :=
  3 ≤ c.length

/-- Connection-event trace of SqliteDB.table (lines 153-178).  `connect` is
called first (a failure there raises before anything is acquired); the
column/foreign-key rendering loops run AFTER the connection is opened and
OUTSIDE the try/finally, so an IndexError from a short tuple escapes without
reaching the `finally: conn.close()`; once the try block is entered, both the
success path and the caught `sqlite3.Error` path run the finally and
release. -/
def sqliteTableEvents (connectOk : Bool) (cols fks : List (List String)) : List Ev :=
  if !connectOk then []
  else if cols.all tupleOk && fks.all tupleOk then [Ev.acq, Ev.rel]
  else [Ev.acq]

/-- Connection-event trace of MysqlDB.create (lines 464-479): `connect` is
inside the try, so a connection failure acquires nothing (the except branch
prints; the `finally: conn.close()` then trips on the unbound name, still
releasing nothing because nothing was opened); on a successful connect every
path, including a caught execute error, reaches the finally and releases. -/
def mysqlCreateEvents (connectOk : Bool) : List Ev :=
  if connectOk then [Ev.acq, Ev.rel] else []

/-- Database state: tables by name, in creation order, each with its rows. -/
abbrev DBState := List (String × List Row)

/-- Whether a table of this name exists in the state. -/
def hasTable (s : DBState) (n : String) : Bool :=
  s.any (fun tb => tb.1 == n)

/-- State after `CREATE TABLE IF NOT EXISTS n (...)` (the statement both
backends' `table` methods issue): an existing table is left untouched (data
and all), otherwise an empty table is added. -/
def createTableState (s : DBState) (n : String) : DBState :=
  if hasTable s n then s else s ++ [(n, [])]

/-- Executed outcome of `CREATE TABLE IF NOT EXISTS`: thanks to the guard the
statement succeeds whether or not the table exists. -/
def execCreateTable (s : DBState) (n : String) : Except DBError DBState :=
  Except.ok (createTableState s n)

/-- State after `DROP TABLE IF EXISTS n` (SqliteDB.del_table line 407,
MysqlDB.del_table line 642): the table of that name is removed when
present. -/
def dropTableState (s : DBState) (n : String) : DBState :=
  s.filter (fun tb => !(tb.1 == n))

/-- Executed outcome of `DROP TABLE IF EXISTS`: thanks to the guard the
statement succeeds whether or not the table exists. -/
def execDropTable (s : DBState) (n : String) : Except DBError DBState :=
  Except.ok (dropTableState s n)

/-- Table names reported by get_tables (`SELECT name FROM sqlite_master WHERE
type='table'` / `SHOW TABLES`): the names of the tables in the state. -/
def listTables (s : DBState) : List String :=
  s.map (fun tb => tb.1)

/-- SqliteDB.create's existence test (line 56):
`[f for f in os.listdir('.') if f == f'{db_name}']` — the working-directory
entries exactly equal (case-sensitively) to the database name. -/
def detectDBFile (listing : List String) (dbName : String) : List String :=
  listing.filter (fun f => f == dbName)

/-- Whether SqliteDB.create (lines 43-65) attempts creation: only when the
exact-match filter came back empty; otherwise it prints that the database
exists and does nothing. -/
def sqliteCreateAttempts (listing : List String) (dbName : String) : Bool :=
  (detectDBFile listing dbName).isEmpty

/-! ## Concrete scenario used by the duplicate-check claims: the stored row
has email "a" and phone "p"; the incoming row carries only the email, and both
columns are declared unique. -/

def exRow : Row := [("email", Val.strV "a"), ("phone", Val.strV "p")]

def exTable : List Row := [exRow]

def exData : Row := [("email", Val.strV "a")]

def exUniq : List String := ["email", "phone"]

/-- The row and condition of SqliteDB.update's own docstring example
(`data = {'salary': 70000}`, `condition = 'id = ?'`). -/
def updData : Row := [("salary", Val.intV 70000)]

/-! ## Helper lemmas -/

/-- Python's `sep.join` distributes over list append when both sides are
non-empty. -/
theorem joinSep_append (sep : String) (a b : List String) (ha : a ≠ []) (hb : b ≠ []) :
    joinSep sep (a ++ b) = joinSep sep a ++ sep ++ joinSep sep b := by
  induction a with
  | nil => exact absurd rfl ha
  | cons x xs ih =>
    cases xs with
    | nil =>
      cases b with
      | nil => exact absurd rfl hb
      | cons y ys => simp [joinSep]
    | cons x2 xs2 =>
      have h2 := ih (by simp)
      simp only [List.cons_append] at h2 ⊢
      rw [joinSep, joinSep]
      rw [h2]
      simp [String.append_assoc]

/-- A `filterMap` misses at least one element when `f` returns `none`
somewhere in the list. -/
theorem length_filterMap_lt {α β : Type} (f : α → Option β) (l : List α)
    (h : l.all (fun a => (f a).isSome) = false) :
    (l.filterMap f).length < l.length := by
  induction l with
  | nil => simp at h
  | cons x xs ih =>
    cases hx : f x with
    | none =>
      simp only [List.filterMap_cons, hx, List.length_cons]
      exact Nat.lt_succ_of_le (List.length_filterMap_le f xs)
    | some b =>
      have hxs : xs.all (fun a => (f a).isSome) = false := by
        simp only [List.all_cons, hx, Option.isSome_some, Bool.true_and] at h
        exact h
      simp only [List.filterMap_cons, hx, List.length_cons]
      exact Nat.succ_lt_succ (ih hxs)

/-! ## Claims -/

/-- Claim C1: with non-empty `unique_columns` whose present columns match an
existing row, `insert` should skip without touching the table.  The SQLite
backend does exactly that, but the MySQL backend does not: its duplicate check
builds two placeholders yet binds one parameter, the driver error is swallowed
into False, and the duplicate row is inserted (row count grows by one). -/
theorem insert_duplicate_divergence :
    sqliteIsDuplicate exTable exData exUniq = true ∧
    sqliteInsert exTable exData exUniq = (exTable, false) ∧
    mysqlIsDuplicate exTable exData exUniq = false ∧
    mysqlInsert exTable exData exUniq = (exTable ++ [exData], true) ∧
    (mysqlInsert exTable exData exUniq).1.length = exTable.length + 1 := by
  decide

/-- Claim C2: `is_duplicate` should build its COUNT query over exactly the
unique columns present in the row, uniformly in both backends; it should
return true iff the count is positive, and false on empty `unique_columns`.
SQLite conforms, and both backends return false on empty `unique_columns`,
but MySQL builds the WHERE clause over every declared unique column (its
parameter list does restrict to the present ones) and returns false on the
resulting mismatch even though the present-column count is positive. -/
theorem dup_query_divergence :
    sqliteDupQuery "t" exData exUniq = "SELECT COUNT(*) FROM t WHERE email = ?" ∧
    mysqlDupQuery "t" exUniq = "SELECT COUNT(*) FROM t WHERE email = %s AND phone = %s" ∧
    (mysqlDupConds exUniq).length = 2 ∧
    (mysqlDupParams exData exUniq).length = 1 ∧
    sqliteIsDuplicate exTable exData [] = false ∧
    mysqlIsDuplicate exTable exData [] = false ∧
    0 < countMatches exTable (sqliteDupCondParams exData exUniq) ∧
    sqliteIsDuplicate exTable exData exUniq = true ∧
    mysqlIsDuplicate exTable exData exUniq = false := by
  decide

/-- Claim C3: `update` should bind the row's values followed by the
caller-supplied condition parameters.  MysqlDB.update does; SqliteDB.update
has no `params` argument at all and binds only the row's values, so its
statement here carries two placeholders against one bound value and the
execution fails (the error is caught and swallowed; no row is updated). -/
theorem sqlite_update_divergence :
    sqliteUpdateQuery "employees" updData "id = ?"
      = "UPDATE employees SET salary = ? WHERE id = ?" ∧
    sqliteUpdateParams updData = [Val.intV 70000] ∧
    countQmarks (sqliteUpdateQuery "employees" updData "id = ?") = 2 ∧
    sqliteUpdateExecOk "employees" updData "id = ?" = false ∧
    mysqlUpdateQuery "employees" updData "id = %s"
      = "UPDATE employees SET salary = %s WHERE id = %s" ∧
    mysqlUpdateParams updData [Val.intV 1] = [Val.intV 70000, Val.intV 1] ∧
    mysqlUpdateExecOk "employees" updData "id = %s" [Val.intV 1] = true := by
  decide

/-- Claim C10: in the MySQL backend, whenever any declared unique column is
absent from the row, `is_duplicate` builds one placeholder per declared
column but supplies parameters only for the present columns; the mismatched
execution fails, the error is caught, `is_duplicate` returns false, and
`insert` proceeds with no effective duplicate check. -/
theorem mysql_dup_check_mismatch (table : List Row) (data : Row) (uniq : List String)
    (h : uniq.all (fun c => (rowVal data c).isSome) = false) :
    (mysqlDupConds uniq).length = uniq.length ∧
    (mysqlDupParams data uniq).length < uniq.length ∧
    mysqlIsDuplicate table data uniq = false ∧
    mysqlInsert table data uniq = (table ++ [data], true) := by
  have huniq : uniq.isEmpty = false := by
    cases uniq with
    | nil => simp at h
    | cons a l => rfl
  have hlt : (mysqlDupParams data uniq).length < uniq.length :=
    length_filterMap_lt _ _ h
  have hdup : mysqlIsDuplicate table data uniq = false := by
    simp [mysqlIsDuplicate, huniq, Nat.ne_of_lt hlt]
  refine ⟨by simp [mysqlDupConds], hlt, hdup, ?_⟩
  simp [mysqlInsert, huniq, hdup]

/-- Concrete instance of `mysql_dup_check_mismatch`: the scenario row declares
email and phone unique while the data carries only the email. -/
theorem mysql_dup_check_mismatch_witness :
    (mysqlDupConds exUniq).length = exUniq.length ∧
    (mysqlDupParams exData exUniq).length < exUniq.length ∧
    mysqlIsDuplicate exTable exData exUniq = false ∧
    mysqlInsert exTable exData exUniq = (exTable ++ [exData], true) :=
  mysql_dup_check_mismatch exTable exData exUniq (by decide)

/-- Claim C4, counterexample: a select whose execution fails returns the very
same value as a successful select matching no rows — the two outcomes are not
distinguishable, in either backend. -/
theorem select_error_cex :
    sqliteSelectResult (Except.error DBError.queryError) = sqliteSelectResult (Except.ok []) ∧
    mysqlSelectResult (Except.error DBError.queryError) = mysqlSelectResult (Except.ok []) :=
  ⟨rfl, rfl⟩

/-- Claim C4, as amended: in both backends `select` catches every driver
failure, logs it, and returns the empty list — the same value a successful
query matching no rows returns; no structured QueryError is surfaced. -/
theorem select_error_swallowed (e : DBError) (rows : List Row) :
    sqliteSelectResult (Except.error e) = [] ∧
    mysqlSelectResult (Except.error e) = [] ∧
    sqliteSelectResult (Except.ok rows) = rows ∧
    mysqlSelectResult (Except.ok rows) = rows ∧
    sqliteSelectResult (Except.error e) = sqliteSelectResult (Except.ok []) ∧
    mysqlSelectResult (Except.error e) = mysqlSelectResult (Except.ok []) :=
  ⟨rfl, rfl, rfl, rfl, rfl, rfl⟩

/-- Claim C5, counterexample: passing a column-name sequence to MysqlDB.select
does not join it with a comma — the Python list is interpolated via its string
form, yielding a malformed column list, unlike SqliteDB.select on the same
arguments. -/
theorem mysql_select_list_cex :
    mysqlSelectQuery "users" (PyColumns.list ["name", "email"]) none
      = "SELECT [\x27name\x27, \x27email\x27] FROM users" ∧
    sqliteSelectQuery "users" (PyColumns.list ["name", "email"]) none
      = "SELECT name, email FROM users" ∧
    mysqlSelectQuery "users" (PyColumns.list ["name", "email"]) none
      ≠ sqliteSelectQuery "users" (PyColumns.list ["name", "email"]) none := by
  decide

/-- Claim C5, as amended: both backends accept the wildcard or a comma-joined
string and build `SELECT <columns> FROM <table>`, appending the WHERE clause
exactly when a non-empty condition is supplied; SqliteDB.select additionally
joins a sequence of column names with a comma, while MysqlDB.select
interpolates a sequence via Python's list rendering. -/
theorem select_query_shape (t s : String) (l : List String) (c : String) (h : c ≠ "") :
    sqliteSelectQuery t (PyColumns.list l) none
      = "SELECT " ++ joinSep ", " l ++ " FROM " ++ t ∧
    sqliteSelectQuery t (PyColumns.list l) (some c)
      = "SELECT " ++ joinSep ", " l ++ " FROM " ++ t ++ " WHERE " ++ c ∧
    sqliteSelectQuery t (PyColumns.str s) (some c)
      = "SELECT " ++ s ++ " FROM " ++ t ++ " WHERE " ++ c ∧
    sqliteSelectQuery t (PyColumns.str s) (some "")
      = sqliteSelectQuery t (PyColumns.str s) none ∧
    mysqlSelectQuery t (PyColumns.str s) (some c)
      = sqliteSelectQuery t (PyColumns.str s) (some c) ∧
    mysqlSelectQuery t (PyColumns.list l) (some c)
      = "SELECT " ++ pyStrListRepr l ++ " FROM " ++ t ++ " WHERE " ++ c := by
  refine ⟨rfl, ?_, ?_, ?_, ?_, ?_⟩ <;>
    simp [sqliteSelectQuery, mysqlSelectQuery, appendWhere, sqliteSelectCols,
      mysqlSelectCols, h]

/-- Concrete instance of `select_query_shape` at the wildcard, a two-column
sequence and the condition `id = ?`. -/
theorem select_query_shape_witness :
    sqliteSelectQuery "users" (PyColumns.list ["name", "email"]) none
      = "SELECT " ++ joinSep ", " ["name", "email"] ++ " FROM " ++ "users" ∧
    sqliteSelectQuery "users" (PyColumns.list ["name", "email"]) (some "id = ?")
      = "SELECT " ++ joinSep ", " ["name", "email"] ++ " FROM " ++ "users" ++ " WHERE " ++ "id = ?" ∧
    sqliteSelectQuery "users" (PyColumns.str "*") (some "id = ?")
      = "SELECT " ++ "*" ++ " FROM " ++ "users" ++ " WHERE " ++ "id = ?" ∧
    sqliteSelectQuery "users" (PyColumns.str "*") (some "")
      = sqliteSelectQuery "users" (PyColumns.str "*") none ∧
    mysqlSelectQuery "users" (PyColumns.str "*") (some "id = ?")
      = sqliteSelectQuery "users" (PyColumns.str "*") (some "id = ?") ∧
    mysqlSelectQuery "users" (PyColumns.list ["name", "email"]) (some "id = ?")
      = "SELECT " ++ pyStrListRepr ["name", "email"] ++ " FROM " ++ "users" ++ " WHERE " ++ "id = ?" :=
  select_query_shape "users" "*" ["name", "email"] "id = ?" (by decide)

/-- Claim C6, counterexample: SqliteDB.table called with a malformed column
tuple (two fields instead of three) opens the connection, then raises
IndexError while rendering the column definitions — before the try/finally is
entered — and exits without releasing the connection. -/
theorem sqlite_table_leak_cex :
    sqliteTableEvents true [["id", "INTEGER"]] [] = [Ev.acq] ∧
    balanced (sqliteTableEvents true [["id", "INTEGER"]] []) = false := by
  decide

/-- Claim C6, as amended: operations release their connection on the success
path and on caught execution-failure paths (MysqlDB.create's trace is always
balanced; when its connect fails nothing was acquired), but SqliteDB.table
builds its DDL after opening the connection and outside the try/finally, so
its trace balances exactly when the connection step fails or every column and
foreign-key tuple has the three fields the rendering accesses. -/
theorem connection_release_shape (ok : Bool) (cols fks : List (List String)) :
    balanced (mysqlCreateEvents ok) = true ∧
    (balanced (sqliteTableEvents ok cols fks) = true ↔
      (ok = false ∨ (cols.all tupleOk && fks.all tupleOk) = true)) := by
  constructor
  · cases ok <;> rfl
  · cases ok with
    | false => simp [sqliteTableEvents, balanced]
    | true =>
      by_cases h : (cols.all tupleOk && fks.all tupleOk) = true
      · simp [sqliteTableEvents, h, balanced]
      · simp only [Bool.not_eq_true] at h
        simp [sqliteTableEvents, h, balanced]

/-- Claim C7: create_table and drop_table are idempotent — re-creating an
existing table succeeds and leaves the state (including all data) unchanged,
a dropped name never appears in list_tables, and dropping again is not an
error and changes nothing. -/
theorem table_lifecycle_idempotent (s : DBState) (n : String) :
    execCreateTable (createTableState s n) n = Except.ok (createTableState s n) ∧
    createTableState (createTableState s n) n = createTableState s n ∧
    n ∉ listTables (dropTableState s n) ∧
    execDropTable (dropTableState s n) n = Except.ok (dropTableState s n) := by
  have h2 : createTableState (createTableState s n) n = createTableState s n := by
    by_cases h : hasTable s n = true
    · simp [createTableState, h]
    · simp only [Bool.not_eq_true] at h
      have hnew : hasTable (s ++ [(n, [])]) n = true := by
        simp [hasTable, List.any_append]
      simp [createTableState, h, hnew]
  have hdrop : (dropTableState s n).filter (fun tb => !(tb.1 == n)) = dropTableState s n := by
    simp only [dropTableState, List.filter_filter]
    simp
  refine ⟨?_, h2, ?_, ?_⟩
  · simp [execCreateTable, h2]
  · intro hmem
    simp only [listTables, dropTableState, List.mem_map] at hmem
    obtain ⟨tb, htb, hn⟩ := hmem
    have := (List.mem_filter.mp htb).2
    rw [hn] at this
    simp at this
  · show Except.ok ((dropTableState s n).filter (fun tb => !(tb.1 == n)))
      = Except.ok (dropTableState s n)
    rw [hdrop]

/-- Claim C8, counterexample: a MysqlDB.table call with no columns and one
foreign key yields a statement whose parenthesised body is not the comma-join
of its fragments — a stray leading separator precedes the foreign-key
clause. -/
theorem mysql_table_fragment_cex :
    mysqlTableQuery "emp" [] [("dep", "deps", "id")]
      = "CREATE TABLE IF NOT EXISTS emp (, FOREIGN KEY (dep) REFERENCES deps(id))" ∧
    mysqlTableQuery "emp" [] [("dep", "deps", "id")]
      ≠ "CREATE TABLE IF NOT EXISTS emp (" ++
          joinSep ", " (([] : List (String × String × String)).map renderColumn ++
            [("dep", "deps", "id")].map renderForeignKey) ++ ")" := by
  decide

/-- Claim C8, as amended: each column definition renders as
`name type constraints` and each foreign key as
`FOREIGN KEY (col) REFERENCES table(col)`; SqliteDB.table joins all fragments
with a comma inside its CREATE TABLE IF NOT EXISTS statement for every input,
and MysqlDB.table does so whenever at least one column is supplied (with an
empty column list its foreign-key clauses follow a stray leading comma). -/
theorem create_table_ddl_shape (t : String) (cols fks : List (String × String × String)) :
    sqliteTableQuery t cols fks
      = "\n        CREATE TABLE IF NOT EXISTS " ++ t ++ " (\n            " ++
          joinSep ", " (cols.map renderColumn ++ fks.map renderForeignKey) ++
          "\n        )\n        " ∧
    (cols ≠ [] → mysqlTableQuery t cols fks
      = "CREATE TABLE IF NOT EXISTS " ++ t ++ " (" ++
          joinSep ", " (cols.map renderColumn ++ fks.map renderForeignKey) ++ ")") := by
  constructor
  · by_cases h : fks.isEmpty = true
    · have : fks = [] := by simpa using h
      simp [sqliteTableQuery, this]
    · simp only [Bool.not_eq_true] at h
      simp [sqliteTableQuery, h]
  · intro hc
    by_cases h : fks.isEmpty = true
    · have : fks = [] := by simpa using h
      simp [mysqlTableQuery, this]
    · simp only [Bool.not_eq_true] at h
      have hfk : fks ≠ [] := by
        intro hnil
        rw [hnil] at h
        simp at h
      rw [joinSep_append ", " (cols.map renderColumn) (fks.map renderForeignKey)
        (by simpa using hc) (by simpa using hfk)]
      simp [mysqlTableQuery, h]

/-- Concrete instance of `create_table_ddl_shape` at one column and one
foreign key. -/
theorem create_table_ddl_shape_witness :
    sqliteTableQuery "emp" [("id", "INTEGER", "PRIMARY KEY")] [("dep", "deps", "id")]
      = "\n        CREATE TABLE IF NOT EXISTS " ++ "emp" ++ " (\n            " ++
          joinSep ", " ([("id", "INTEGER", "PRIMARY KEY")].map renderColumn ++
            [("dep", "deps", "id")].map renderForeignKey) ++
          "\n        )\n        " ∧
    mysqlTableQuery "emp" [("id", "INTEGER", "PRIMARY KEY")] [("dep", "deps", "id")]
      = "CREATE TABLE IF NOT EXISTS " ++ "emp" ++ " (" ++
          joinSep ", " ([("id", "INTEGER", "PRIMARY KEY")].map renderColumn ++
            [("dep", "deps", "id")].map renderForeignKey) ++ ")" := by
  have h := create_table_ddl_shape "emp" [("id", "INTEGER", "PRIMARY KEY")] [("dep", "deps", "id")]
  exact ⟨h.1, h.2 (by decide)⟩

/-- Claim C9: SqliteDB.create attempts to create the database file exactly
when no entry of the working-directory listing equals the database name
(string equality, hence an exact case-sensitive filename match); when a match
exists it performs no creation. -/
theorem create_checks_exact_filename (listing : List String) (name : String) :
    sqliteCreateAttempts listing name = false ↔ name ∈ listing := by
  induction listing with
  | nil => simp [sqliteCreateAttempts, detectDBFile]
  | cons x xs ih =>
    by_cases hx : (x == name) = true
    · have hxe : x = name := by simpa using hx
      simp [sqliteCreateAttempts, detectDBFile, List.filter_cons, hx, hxe]
    · have hxe : ¬x = name := by simpa using hx
      have hneq : name ≠ x := fun heq => hxe heq.symm
      have hfx : (x == name) = false := by simpa using hxe
      simp only [sqliteCreateAttempts, detectDBFile] at ih ⊢
      simp only [List.filter_cons, hfx, if_false, Bool.false_eq_true]
      rw [ih]
      simp [List.mem_cons, hneq]

end EasySql
